import Mathlib

/-!
Verification of go-refactoring-legacy-code: the refactored `processor_fixed` and `report_fixed` packages

A shallow embedding of `processor_fixed.go` and `report_fixed.go`.

Both methods talk to the outside world only through injected collaborators.
The embedding keeps that shape: a collaborator is a function on an arbitrary
world state `σ` (so it may be stateful and may answer anything), the method
threads the world through its calls in source order, and every call the method
makes is appended to a trace, so that "how many times" and "in which order"
are statements about the returned trace.

Go values:
* `string` is `String`; `error` is `Option GoError` (`none` is `nil`);
* `map[string]string` is an association list, indexed the Go way (a missing
  key reads as the empty string);
* `time.Time` is the calendar reading of the instant, `t.Day()` and
  `t.Month()` are its fields;
* `float64` is an arbitrary type `F`, and the rendering that
  `fmt.Sprintf("%f", _)` gives it is a parameter;
* `[]byte` is the list of its bytes. A slice passed to a collaborator shares
  its array with the caller, so the collaborator also returns the stores it
  made into it, and the caller reads the slice with those stores applied.
-/

/-- Go `error` values that are not nil. `errorf msg` is what
`fmt.Errorf` builds from a format without `%w`: an error whose text is `msg`.
`foreign id msg` is any error value handed back by a collaborator. -/
inductive GoError where
  | errorf (msg : String)
  | foreign (id : Nat) (msg : String)
  deriving DecidableEq, Repr

/-- The `Error()` text of an error value. -/
def GoError.Error : GoError → String
  | .errorf msg => msg
  | .foreign _ msg => msg

namespace ProcessorFixed

/-- A decoded `map[string]string`. -/
abbrev Config := List (String × String)

/-- Go map indexing `config[key]`: the zero value `""` when the key is absent
(also on a nil map). -/
def Config.index (config : Config) (key : String) : String :=
  (config.lookup key).getD ""

/-- Calls made by `ProcessUser`, in the order they happen. -/
inductive Event where
  | onProcess
  | openPath (path : String)
  | decode
  | getStatus (userID : String)
  | onExit (code : Int)
  | close
  deriving DecidableEq, Repr

/-- An `io.ReadCloser` as `ProcessUser` uses it: `json.NewDecoder(f).Decode(&config)`
reads it and yields a mapping or an error, `Close` releases it. -/
structure ReadCloser (σ : Type) where
  Decode : σ → Except GoError Config × σ
  Close : σ → σ

/-- Interface `ReaderProvider`: `Open(path) (io.ReadCloser, error)`. -/
structure ReaderProvider (σ : Type) where
  Open : String → σ → Except GoError (ReadCloser σ) × σ

/-- Interface `PaymentClient`: `GetStatus(userID) (int, error)`; both results are kept,
a collaborator may return a status together with an error. -/
structure PaymentClient (σ : Type) where
  GetStatus : String → σ → (Int × Option GoError) × σ

/-- Struct `UserProcessor`, fields as in the source. -/
structure UserProcessor (σ : Type) where
  configPath : String
  reader : ReaderProvider σ
  payments : PaymentClient σ
  OnProcess : σ → σ
  OnExit : Int → σ → σ

/-- Constructor `NewUserProcessor`: both function fields default to doing nothing. -/
def NewUserProcessor {σ : Type} (rp : ReaderProvider σ) (pc : PaymentClient σ)
    (path : String) : UserProcessor σ :=
  { configPath := path, reader := rp, payments := pc,
    OnProcess := fun w => w, OnExit := fun _ w => w }

/-- Function `IsBannedAction(mode, userID)`. -/
def IsBannedAction (mode : String) (userID : String) : Bool :=
  mode == "strict" && userID == "banned-user-123"

/-- What one call leaves behind: the returned error, the world and the trace. -/
structure Outcome (σ : Type) where
  err : Option GoError
  world : σ
  trace : List Event

/-- Lines 57-75 of `ProcessUser`: the statements that run between
`defer configFile.Close()` and the deferred call. `tr` is the trace so far. -/
def processOpened {σ : Type} (up : UserProcessor σ) (configFile : ReadCloser σ)
    (userID : String) (w : σ) (tr : List Event) : Outcome σ :=
  -- 3. json.NewDecoder(configFile).Decode(&config)
  match configFile.Decode w with
  | (.error err, w) => ⟨some err, w, tr ++ [.decode]⟩
  | (.ok config, w) =>
    -- 4. statusCode, err := up.payments.GetStatus(userID)
    match up.payments.GetStatus userID w with
    | ((statusCode, err), w) =>
      if err ≠ none ∨ statusCode ≠ 200 then
        ⟨some (.errorf ("payment check failed for " ++ userID)), w,
          tr ++ [.decode, .getStatus userID]⟩
      else if IsBannedAction (config.index "mode") userID then
        -- 5. up.OnExit(1)
        ⟨some (.errorf "banned user encountered"), up.OnExit 1 w,
          tr ++ [.decode, .getStatus userID, .onExit 1]⟩
      else
        ⟨none, w, tr ++ [.decode, .getStatus userID]⟩

/-- Method `(*UserProcessor).ProcessUser(userID)`. -/
def ProcessUser {σ : Type} (up : UserProcessor σ) (userID : String) (w : σ) : Outcome σ :=
  -- 1. up.OnProcess()
  let w := up.OnProcess w
  -- 2. configFile, err := up.reader.Open(up.configPath)
  match up.reader.Open up.configPath w with
  | (.error err, w) => ⟨some err, w, [.onProcess, .openPath up.configPath]⟩
  | (.ok configFile, w) =>
    -- defer configFile.Close(): runs once the result is fixed, its own result is dropped
    let r := processOpened up configFile userID w [.onProcess, .openPath up.configPath]
    ⟨r.err, configFile.Close r.world, r.trace ++ [.close]⟩

/-- The exit codes passed to `OnExit` in a trace, in call order. -/
def exitCalls (tr : List Event) : List Int :=
  tr.filterMap fun ev =>
    match ev with
    | .onExit code => some code
    | _ => none

/-- The user identifiers passed to `GetStatus` in a trace, in call order. -/
def statusCalls (tr : List Event) : List String :=
  tr.filterMap fun ev =>
    match ev with
    | .getStatus userID => some userID
    | _ => none

/-- The world of the package's test: the two probes of
`TestProcessUser_BannedUser`, and a count of `Close` calls on the stream. -/
structure Probe where
  exitCalled : Bool
  processedCount : Nat
  closeCount : Nat
  deriving DecidableEq, Repr

/-- A reader after the test's `MockReader`: `Open` always succeeds; `decoded` is
what decoding its content gives, and its stream counts the `Close` calls. -/
def MockReader (decoded : Except GoError Config) : ReaderProvider Probe :=
  { Open := fun _ w =>
      (.ok { Decode := fun w => (decoded, w),
             Close := fun w => { w with closeCount := w.closeCount + 1 } }, w) }

/-- A reader whose `Open` always fails with `e`. -/
def BrokenReader (e : GoError) : ReaderProvider Probe :=
  { Open := fun _ w => (.error e, w) }

/-- The test's `MockPayments`: `GetStatus` returns `(Status, nil)`. -/
def MockPayments (status : Int) : PaymentClient Probe :=
  { GetStatus := fun _ w => ((status, none), w) }

/-- A payment client whose `GetStatus` returns `(status, e)`. -/
def BrokenPayments (status : Int) (e : GoError) : PaymentClient Probe :=
  { GetStatus := fun _ w => ((status, some e), w) }

/-- The processor of `TestProcessUser_BannedUser`: built by `NewUserProcessor`
with path `"config.json"`, then both function fields replaced by probes. -/
def probedProcessor (rp : ReaderProvider Probe) (pc : PaymentClient Probe) :
    UserProcessor Probe :=
  { NewUserProcessor rp pc "config.json" with
    OnExit := fun _ w => { w with exitCalled := true },
    OnProcess := fun w => { w with processedCount := w.processedCount + 1 } }

/-- The probes before the call. -/
def Probe.init : Probe := ⟨false, 0, 0⟩

/-- An error value of a collaborator, used in examples. -/
def errNoEnt : GoError := .foreign 2 "open config.json: no such file or directory"

/-- An error value of the JSON decoder, used in examples. -/
def errSyntax : GoError := .foreign 3 "unexpected end of JSON input"

/-- An error value of the payment client, used in examples. -/
def errTimeout : GoError := .foreign 4 "context deadline exceeded"

end ProcessorFixed

namespace ReportFixed

/-- Type `time.Month`: January is 1. -/
abbrev Month := Nat

/-- A `time.Time`, read on the calendar of its location. -/
structure Time where
  year : Int
  month : Month
  day : Nat
  hour : Nat
  minute : Nat
  second : Nat
  nanosecond : Nat
  deriving DecidableEq, Repr

/-- Method `t.Day()`: the day of the month. -/
def Time.Day (t : Time) : Nat := t.day

/-- Method `t.Month()`: the month of the year. -/
def Time.Month (t : Time) : Month := t.month

/-- A `[]byte`: the bytes it holds. -/
structure ByteSlice where
  bytes : List UInt8
  deriving DecidableEq, Repr

/-- A Go `string` obtained from a byte slice. Such a string may hold any bytes,
so it is kept as its bytes. -/
structure GoString where
  bytes : List UInt8
  deriving DecidableEq, Repr

/-- The Go string with the text `s`: its UTF-8 bytes. -/
def GoString.ofString (s : String) : GoString := ⟨s.toUTF8.data.toList⟩

/-- The conversion `[]byte(s)`: a fresh slice holding the UTF-8 bytes of `s`. -/
def ByteSlice.ofString (s : String) : ByteSlice := ⟨s.toUTF8.data.toList⟩

/-- The conversion `string(b)`: a copy of the bytes `b` holds when it is evaluated. -/
def ByteSlice.toString (b : ByteSlice) : GoString := ⟨b.bytes⟩

/-- A store `data[i] = v` made through a slice that shares the array of `b`.
A store past the length of `b` does not show in `b`. -/
def ByteSlice.store (b : ByteSlice) (i : Nat) (v : UInt8) : ByteSlice := ⟨b.bytes.set i v⟩

/-- The slice `b` after the stores `writes`, made in order. -/
def ByteSlice.storeAll (b : ByteSlice) (writes : List (Nat × UInt8)) : ByteSlice :=
  writes.foldl (fun acc wr => acc.store wr.1 wr.2) b

/-- Calls made by `GenerateReport`, in the order they happen. -/
inductive Event where
  | now
  | getMonthlyRevenue (month : Month)
  | upload (key : String) (data : ByteSlice)
  | mail (recipient : String) (body : GoString)
  deriving DecidableEq, Repr

/-- Interface `RevenueReader`: `GetMonthlyRevenue(month) (float64, error)`. -/
structure RevenueReader (σ F : Type) where
  GetMonthlyRevenue : Month → σ → (F × Option GoError) × σ

/-- Interface `Uploader`: `Upload(key, data) error`. The slice `data` shares its
array with the slice of the caller, so next to its error an uploader returns the
stores it made into `data`, in order (none for an uploader that only reads). -/
structure Uploader (σ : Type) where
  Upload : String → ByteSlice → σ → (Option GoError × List (Nat × UInt8)) × σ

/-- Function type `EmailSender`: `func(to string, body string) error`. -/
abbrev EmailSender (σ : Type) := String → GoString → σ → Option GoError × σ

/-- Struct `ReportManager`, fields as in the source. -/
structure ReportManager (σ F : Type) where
  reader : RevenueReader σ F
  uploader : Uploader σ
  mailer : EmailSender σ
  now : σ → Time × σ

/-- Constructor `NewReportManager`. -/
def NewReportManager {σ F : Type} (r : RevenueReader σ F) (u : Uploader σ)
    (m : EmailSender σ) (n : σ → Time × σ) : ReportManager σ F :=
  { reader := r, uploader := u, mailer := m, now := n }

/-- Function `IsReportDay(t)`. -/
def IsReportDay (t : Time) : Bool :=
  t.Day == 1

/-- What one call leaves behind: the returned error, the world and the trace. -/
structure Outcome (σ : Type) where
  err : Option GoError
  world : σ
  trace : List Event

/-- Method `(*ReportManager).GenerateReport(adminEmail)`. `fmtF total` is the text the
verb `%f` renders for `total`. -/
def GenerateReport {σ F : Type} (fmtF : F → String) (rm : ReportManager σ F)
    (adminEmail : String) (w : σ) : Outcome σ :=
  -- currentTime := rm.now()
  match rm.now w with
  | (currentTime, w) =>
    if !IsReportDay currentTime then
      ⟨some (.errorf "reports can only be generated on the 1st"), w, [.now]⟩
    else
      -- total, err := rm.reader.GetMonthlyRevenue(currentTime.Month())
      match rm.reader.GetMonthlyRevenue currentTime.Month w with
      | ((total, err), w) =>
        if err ≠ none then
          ⟨err, w, [.now, .getMonthlyRevenue currentTime.Month]⟩
        else
          let reportContent := ByteSlice.ofString ("Revenue: " ++ fmtF total)
          -- err = rm.uploader.Upload("monthly-report.txt", reportContent)
          match rm.uploader.Upload "monthly-report.txt" reportContent w with
          | ((err, writes), w) =>
            if err ≠ none then
              ⟨err, w, [.now, .getMonthlyRevenue currentTime.Month,
                .upload "monthly-report.txt" reportContent]⟩
            else
              -- return rm.mailer(adminEmail, string(reportContent)):
              -- reportContent is read again here, after the uploader had it
              let body := (reportContent.storeAll writes).toString
              match rm.mailer adminEmail body w with
              | (err, w) =>
                ⟨err, w, [.now, .getMonthlyRevenue currentTime.Month,
                  .upload "monthly-report.txt" reportContent,
                  .mail adminEmail body]⟩

/-- The calls in a trace that go to the revenue reader, the uploader or the
mailer (everything but the reading of the clock). -/
def collaboratorCalls (tr : List Event) : List Event :=
  tr.filter fun ev =>
    match ev with
    | .now => false
    | _ => true

/-- The world of the examples: what the fakes have been asked so far. -/
structure Ledger where
  queried : List Month
  uploaded : List (String × ByteSlice)
  mailed : List (String × GoString)
  deriving DecidableEq, Repr

/-- Nothing asked yet. -/
def Ledger.init : Ledger := ⟨[], [], []⟩

/-- A revenue reader after the test's `FakeDB`: returns `(revenue, err)` and notes the month it was asked for. A
whole number stands for the `float64` of that value. -/
def FakeDB (revenue : Nat) (err : Option GoError) : RevenueReader Ledger Nat :=
  { GetMonthlyRevenue := fun m w => ((revenue, err), { w with queried := w.queried ++ [m] }) }

/-- An uploader after the test's `FakeS3`: returns `err`, writes nothing into the
slice and notes what it was given. -/
def FakeS3 (err : Option GoError) : Uploader Ledger :=
  { Upload := fun k d w => ((err, []), { w with uploaded := w.uploaded ++ [(k, d)] }) }

/-- An uploader that notes what it was given, then does `data[0] = 88` (the
letter X) and returns nil. -/
def ScribblingS3 : Uploader Ledger :=
  { Upload := fun k d w => ((none, [(0, 88)]), { w with uploaded := w.uploaded ++ [(k, d)] }) }

/-- A mailer after the test's `fakeEmail`: returns `err` and notes what it was given. -/
def fakeEmail (err : Option GoError) : EmailSender Ledger :=
  fun recipient body w => (err, { w with mailed := w.mailed ++ [(recipient, body)] })

/-- The manager of `TestGenerateReport_Success`, with the clock frozen at `t` and
the fakes answering with the given errors. -/
def frozenManager (t : Time) (revenue : Nat) (dbErr s3Err mailErr : Option GoError) :
    ReportManager Ledger Nat :=
  NewReportManager (FakeDB revenue dbErr) (FakeS3 s3Err) (fakeEmail mailErr) (fun w => (t, w))

/-- The same manager with the uploader `ScribblingS3`; reader and mailer succeed. -/
def scribbledManager (t : Time) (revenue : Nat) : ReportManager Ledger Nat :=
  NewReportManager (FakeDB revenue none) ScribblingS3 (fakeEmail none) (fun w => (t, w))

/-- What `%f` renders for the `float64` of a whole number below `2 ^ 53`:
six zero decimals. -/
def fmtWhole (n : Nat) : String := toString n ++ ".000000"

/-- The frozen time of `TestGenerateReport_Success`: 1 February 2026, 10:00. -/
def frozenTime : Time := ⟨2026, 2, 1, 10, 0, 0, 0⟩

/-- A timestamp that is not a report day: 15 March 2026, 09:30. -/
def midMonth : Time := ⟨2026, 3, 15, 9, 30, 0, 0⟩

/-- An error value of the revenue reader, used in examples. -/
def errDB : GoError := .foreign 10 "sql: no rows in result set"

/-- An error value of the uploader, used in examples. -/
def errS3 : GoError := .foreign 11 "AccessDenied"

/-- An error value of the mailer, used in examples. -/
def errSMTP : GoError := .foreign 12 "dial tcp: connection refused"

end ReportFixed

/-- C1: `IsBannedAction mode userID` is true exactly when `mode` is `"strict"` and
`userID` is `"banned-user-123"`, and false on every other pair; in particular it
is false on the case variants `"Strict"` and `"BANNED-USER-123"` and on empty
strings. -/
theorem isBannedAction_iff :
    (∀ mode userID : String, ProcessorFixed.IsBannedAction mode userID = true ↔
      (mode = "strict" ∧ userID = "banned-user-123")) ∧
    (∀ mode userID : String, ProcessorFixed.IsBannedAction mode userID = false ↔
      ¬ (mode = "strict" ∧ userID = "banned-user-123")) ∧
    ProcessorFixed.IsBannedAction "strict" "banned-user-123" = true ∧
    ProcessorFixed.IsBannedAction "Strict" "banned-user-123" = false ∧
    ProcessorFixed.IsBannedAction "STRICT" "banned-user-123" = false ∧
    ProcessorFixed.IsBannedAction "strict" "BANNED-USER-123" = false ∧
    ProcessorFixed.IsBannedAction "strict" "Banned-User-123" = false ∧
    ProcessorFixed.IsBannedAction "" "banned-user-123" = false ∧
    ProcessorFixed.IsBannedAction "strict" "" = false ∧
    ProcessorFixed.IsBannedAction "" "" = false := by
  have h : ∀ mode userID : String, ProcessorFixed.IsBannedAction mode userID = true ↔
      (mode = "strict" ∧ userID = "banned-user-123") := by
    intro mode userID
    simp [ProcessorFixed.IsBannedAction]
  refine ⟨h, ?_, ?_, ?_, ?_, ?_, ?_, ?_, ?_, ?_⟩
  · intro mode userID
    rw [← h mode userID]
    simp
  all_goals decide

/-- C2: `IsReportDay t` is true exactly when the day of the month of `t` is 1, and
two timestamps with the same day of the month get the same answer whatever their
year, month and time of day. -/
theorem isReportDay_iff_day_one (y1 y2 : Int) (m1 m2 d1 d2 h1 h2 mi1 mi2 s1 s2 n1 n2 : Nat)
    (hd : d1 = d2) :
    (∀ t : ReportFixed.Time, ReportFixed.IsReportDay t = true ↔ t.Day = 1) ∧
    (ReportFixed.IsReportDay ⟨y1, m1, d1, h1, mi1, s1, n1⟩ = true ↔ d1 = 1) ∧
    ReportFixed.IsReportDay ⟨y1, m1, d1, h1, mi1, s1, n1⟩ =
      ReportFixed.IsReportDay ⟨y2, m2, d2, h2, mi2, s2, n2⟩ := by
  subst hd
  refine ⟨?_, ?_, ?_⟩
  · intro t
    simp [ReportFixed.IsReportDay]
  · simp [ReportFixed.IsReportDay, ReportFixed.Time.Day]
  · simp [ReportFixed.IsReportDay, ReportFixed.Time.Day]

/-- Witness for C2: 1 February 2026 10:00 and 1 January 2026 00:00 are both report days. -/
theorem isReportDay_iff_day_one_witness :
    (∀ t : ReportFixed.Time, ReportFixed.IsReportDay t = true ↔ t.Day = 1) ∧
    (ReportFixed.IsReportDay ⟨2026, 2, 1, 10, 0, 0, 0⟩ = true ↔ 1 = 1) ∧
    ReportFixed.IsReportDay ⟨2026, 2, 1, 10, 0, 0, 0⟩ =
      ReportFixed.IsReportDay ⟨2026, 1, 1, 0, 0, 0, 0⟩ :=
  isReportDay_iff_day_one 2026 2026 2 1 1 1 10 0 0 0 0 0 0 0 rfl

section ProcessUserLemmas

open ProcessorFixed

/-- The statements under the deferred `Close` only append to the trace, and what
they append starts with the decode and holds no `onProcess` and no `close`. -/
theorem processOpened_trace {σ : Type} (up : UserProcessor σ) (f : ReadCloser σ)
    (userID : String) (w : σ) (tr : List Event) :
    ∃ suf, (processOpened up f userID w tr).trace = tr ++ suf ∧
      Event.onProcess ∉ suf ∧ Event.close ∉ suf := by
  unfold processOpened
  split
  · exact ⟨[.decode], rfl, by simp, by simp⟩
  · split
    split_ifs
    · exact ⟨[.decode, .getStatus userID], rfl, by simp, by simp⟩
    · exact ⟨[.decode, .getStatus userID, .onExit 1], rfl, by simp, by simp⟩
    · exact ⟨[.decode, .getStatus userID], rfl, by simp, by simp⟩

/-- Unfolding of `ProcessUser` when `Open` fails. -/
theorem processUser_eq_of_open_error {σ : Type} (up : UserProcessor σ) (userID : String)
    (w : σ) (e : GoError) (w2 : σ)
    (hopen : up.reader.Open up.configPath (up.OnProcess w) = (.error e, w2)) :
    ProcessUser up userID w = ⟨some e, w2, [.onProcess, .openPath up.configPath]⟩ := by
  simp [ProcessUser, hopen]

/-- Unfolding of `ProcessUser` when `Open` succeeds. -/
theorem processUser_eq_of_open_ok {σ : Type} (up : UserProcessor σ) (userID : String)
    (w : σ) (f : ReadCloser σ) (w2 : σ)
    (hopen : up.reader.Open up.configPath (up.OnProcess w) = (.ok f, w2)) :
    ProcessUser up userID w =
      ⟨(processOpened up f userID w2 [.onProcess, .openPath up.configPath]).err,
        f.Close (processOpened up f userID w2 [.onProcess, .openPath up.configPath]).world,
        (processOpened up f userID w2 [.onProcess, .openPath up.configPath]).trace ++
          [.close]⟩ := by
  simp [ProcessUser, hopen]

end ProcessUserLemmas

/-- C3: when the configuration opens and decodes to `config` and the payment client
answers `(200, nil)`: for `"banned-user-123"` under mode `"strict"`, `ProcessUser`
calls `OnExit` exactly once, with code 1, and returns the error
`"banned user encountered"`; for any other user, whatever `config` holds, it
returns nil and never calls `OnExit`. -/
theorem processUser_banned_or_ok {σ : Type} (up : ProcessorFixed.UserProcessor σ)
    (userID : String) (w : σ) (configFile : ProcessorFixed.ReadCloser σ)
    (config : ProcessorFixed.Config) (w2 w3 w4 : σ)
    (hopen : up.reader.Open up.configPath (up.OnProcess w) = (.ok configFile, w2))
    (hdec : configFile.Decode w2 = (.ok config, w3))
    (hpay : up.payments.GetStatus userID w3 = ((200, none), w4)) :
    (userID = "banned-user-123" → config.index "mode" = "strict" →
      ProcessorFixed.ProcessUser up userID w =
        ⟨some (.errorf "banned user encountered"), configFile.Close (up.OnExit 1 w4),
          [.onProcess, .openPath up.configPath, .decode, .getStatus userID, .onExit 1,
            .close]⟩ ∧
      ProcessorFixed.exitCalls (ProcessorFixed.ProcessUser up userID w).trace = [1] ∧
      (ProcessorFixed.ProcessUser up userID w).err.map GoError.Error =
        some "banned user encountered") ∧
    (userID ≠ "banned-user-123" →
      ProcessorFixed.ProcessUser up userID w =
        ⟨none, configFile.Close w4,
          [.onProcess, .openPath up.configPath, .decode, .getStatus userID, .close]⟩ ∧
      ProcessorFixed.exitCalls (ProcessorFixed.ProcessUser up userID w).trace = []) := by
  constructor
  · intro hu hm
    have hb : ProcessorFixed.IsBannedAction (config.index "mode") userID = true := by
      simp [ProcessorFixed.IsBannedAction, hu, hm]
    have h : ProcessorFixed.ProcessUser up userID w =
        ⟨some (.errorf "banned user encountered"), configFile.Close (up.OnExit 1 w4),
          [.onProcess, .openPath up.configPath, .decode, .getStatus userID, .onExit 1,
            .close]⟩ := by
      simp [ProcessorFixed.ProcessUser, ProcessorFixed.processOpened, hopen, hdec, hpay, hb]
    refine ⟨h, ?_, ?_⟩
    · rw [h]; simp [ProcessorFixed.exitCalls]
    · rw [h]; simp [GoError.Error]
  · intro hu
    have hb : ProcessorFixed.IsBannedAction (config.index "mode") userID = false := by
      simp [ProcessorFixed.IsBannedAction, hu]
    have h : ProcessorFixed.ProcessUser up userID w =
        ⟨none, configFile.Close w4,
          [.onProcess, .openPath up.configPath, .decode, .getStatus userID, .close]⟩ := by
      simp [ProcessorFixed.ProcessUser, ProcessorFixed.processOpened, hopen, hdec, hpay, hb]
    refine ⟨h, ?_⟩
    rw [h]; simp [ProcessorFixed.exitCalls]

/-- Witness for C3: the processor of `TestProcessUser_BannedUser` (config
`{"mode":"strict"}`, status 200), run on `"banned-user-123"` and on `"alice"`. -/
theorem processUser_banned_or_ok_witness :
    (ProcessorFixed.ProcessUser
        (ProcessorFixed.probedProcessor (ProcessorFixed.MockReader (.ok [("mode", "strict")]))
          (ProcessorFixed.MockPayments 200))
        "banned-user-123" ProcessorFixed.Probe.init =
      ⟨some (.errorf "banned user encountered"), ⟨true, 1, 1⟩,
        [.onProcess, .openPath "config.json", .decode, .getStatus "banned-user-123",
          .onExit 1, .close]⟩ ∧
      ProcessorFixed.exitCalls (ProcessorFixed.ProcessUser
        (ProcessorFixed.probedProcessor (ProcessorFixed.MockReader (.ok [("mode", "strict")]))
          (ProcessorFixed.MockPayments 200))
        "banned-user-123" ProcessorFixed.Probe.init).trace = [1] ∧
      (ProcessorFixed.ProcessUser
        (ProcessorFixed.probedProcessor (ProcessorFixed.MockReader (.ok [("mode", "strict")]))
          (ProcessorFixed.MockPayments 200))
        "banned-user-123" ProcessorFixed.Probe.init).err.map GoError.Error =
        some "banned user encountered") ∧
    (ProcessorFixed.ProcessUser
        (ProcessorFixed.probedProcessor (ProcessorFixed.MockReader (.ok [("mode", "strict")]))
          (ProcessorFixed.MockPayments 200))
        "alice" ProcessorFixed.Probe.init =
      ⟨none, ⟨false, 1, 1⟩,
        [.onProcess, .openPath "config.json", .decode, .getStatus "alice", .close]⟩ ∧
      ProcessorFixed.exitCalls (ProcessorFixed.ProcessUser
        (ProcessorFixed.probedProcessor (ProcessorFixed.MockReader (.ok [("mode", "strict")]))
          (ProcessorFixed.MockPayments 200))
        "alice" ProcessorFixed.Probe.init).trace = []) :=
  ⟨(processUser_banned_or_ok
      (ProcessorFixed.probedProcessor (ProcessorFixed.MockReader (.ok [("mode", "strict")]))
        (ProcessorFixed.MockPayments 200))
      "banned-user-123" ProcessorFixed.Probe.init _ [("mode", "strict")] _ _ _
      rfl rfl rfl).1 rfl (by decide),
   (processUser_banned_or_ok
      (ProcessorFixed.probedProcessor (ProcessorFixed.MockReader (.ok [("mode", "strict")]))
        (ProcessorFixed.MockPayments 200))
      "alice" ProcessorFixed.Probe.init _ [("mode", "strict")] _ _ _
      rfl rfl rfl).2 (by decide)⟩

/-- C4, as the code has it: one call to `ProcessUser` calls `OnProcess` exactly once,
as its first action, whatever the collaborators do, so also when opening the
configuration fails. -/
theorem processUser_notifies_once {σ : Type} (up : ProcessorFixed.UserProcessor σ)
    (userID : String) (w : σ) :
    (ProcessorFixed.ProcessUser up userID w).trace.count .onProcess = 1 ∧
    (ProcessorFixed.ProcessUser up userID w).trace.head? = some .onProcess := by
  rcases hopen : up.reader.Open up.configPath (up.OnProcess w) with ⟨ores, w2⟩
  cases ores with
  | error e =>
    rw [processUser_eq_of_open_error up userID w e w2 hopen]
    simp
  | ok f =>
    rw [processUser_eq_of_open_ok up userID w f w2 hopen]
    obtain ⟨suf, hs, hnp, _⟩ :=
      processOpened_trace up f userID w2 [.onProcess, .openPath up.configPath]
    simp only [hs]
    refine ⟨?_, by simp⟩
    simp [List.count_cons, List.count_eq_zero_of_not_mem hnp]

/-- C4, counterexample: with a reader whose `Open` fails, `ProcessUser` has called
`OnProcess` once, not zero times; so the claim that it is called once when the
open succeeds and zero times when it fails does not hold. -/
theorem processUser_notifies_when_open_fails :
    (ProcessorFixed.ProcessUser
        (ProcessorFixed.probedProcessor (ProcessorFixed.BrokenReader ProcessorFixed.errNoEnt)
          (ProcessorFixed.MockPayments 200))
        "alice" ProcessorFixed.Probe.init).trace.count .onProcess = 1 ∧
    (ProcessorFixed.ProcessUser
        (ProcessorFixed.probedProcessor (ProcessorFixed.BrokenReader ProcessorFixed.errNoEnt)
          (ProcessorFixed.MockPayments 200))
        "alice" ProcessorFixed.Probe.init).world.processedCount = 1 ∧
    ¬ (∀ (σ : Type) (up : ProcessorFixed.UserProcessor σ) (userID : String) (w : σ),
        ((∃ f w2, up.reader.Open up.configPath (up.OnProcess w) = (.ok f, w2)) →
          (ProcessorFixed.ProcessUser up userID w).trace.count .onProcess = 1) ∧
        ((∃ e w2, up.reader.Open up.configPath (up.OnProcess w) = (.error e, w2)) →
          (ProcessorFixed.ProcessUser up userID w).trace.count .onProcess = 0)) := by
  refine ⟨by decide, by decide, ?_⟩
  intro h
  have h0 := (h ProcessorFixed.Probe
    (ProcessorFixed.probedProcessor (ProcessorFixed.BrokenReader ProcessorFixed.errNoEnt)
      (ProcessorFixed.MockPayments 200))
    "alice" ProcessorFixed.Probe.init).2 ⟨ProcessorFixed.errNoEnt, _, rfl⟩
  revert h0
  decide

/-- C5: when `Open` fails with `e`, `ProcessUser` returns exactly `e`; `OnProcess` has
been called once, before the open attempt, and neither `GetStatus` nor `OnExit`
is called (nor is anything decoded or closed). -/
theorem processUser_open_error {σ : Type} (up : ProcessorFixed.UserProcessor σ)
    (userID : String) (w : σ) (e : GoError) (w2 : σ)
    (hopen : up.reader.Open up.configPath (up.OnProcess w) = (.error e, w2)) :
    ProcessorFixed.ProcessUser up userID w =
      ⟨some e, w2, [.onProcess, .openPath up.configPath]⟩ ∧
    (ProcessorFixed.ProcessUser up userID w).trace.count .onProcess = 1 ∧
    ProcessorFixed.statusCalls (ProcessorFixed.ProcessUser up userID w).trace = [] ∧
    ProcessorFixed.exitCalls (ProcessorFixed.ProcessUser up userID w).trace = [] := by
  have h : ProcessorFixed.ProcessUser up userID w =
      ⟨some e, w2, [.onProcess, .openPath up.configPath]⟩ :=
    processUser_eq_of_open_error up userID w e w2 hopen
  refine ⟨h, ?_, ?_, ?_⟩ <;> rw [h] <;>
    simp [ProcessorFixed.statusCalls, ProcessorFixed.exitCalls]

/-- Witness for C5: a reader that fails with "no such file", user `"banned-user-123"`. -/
theorem processUser_open_error_witness :
    ProcessorFixed.ProcessUser
        (ProcessorFixed.probedProcessor (ProcessorFixed.BrokenReader ProcessorFixed.errNoEnt)
          (ProcessorFixed.MockPayments 200))
        "banned-user-123" ProcessorFixed.Probe.init =
      ⟨some ProcessorFixed.errNoEnt, ⟨false, 1, 0⟩, [.onProcess, .openPath "config.json"]⟩ ∧
    (ProcessorFixed.ProcessUser
        (ProcessorFixed.probedProcessor (ProcessorFixed.BrokenReader ProcessorFixed.errNoEnt)
          (ProcessorFixed.MockPayments 200))
        "banned-user-123" ProcessorFixed.Probe.init).trace.count .onProcess = 1 ∧
    ProcessorFixed.statusCalls (ProcessorFixed.ProcessUser
        (ProcessorFixed.probedProcessor (ProcessorFixed.BrokenReader ProcessorFixed.errNoEnt)
          (ProcessorFixed.MockPayments 200))
        "banned-user-123" ProcessorFixed.Probe.init).trace = [] ∧
    ProcessorFixed.exitCalls (ProcessorFixed.ProcessUser
        (ProcessorFixed.probedProcessor (ProcessorFixed.BrokenReader ProcessorFixed.errNoEnt)
          (ProcessorFixed.MockPayments 200))
        "banned-user-123" ProcessorFixed.Probe.init).trace = [] :=
  processUser_open_error
    (ProcessorFixed.probedProcessor (ProcessorFixed.BrokenReader ProcessorFixed.errNoEnt)
      (ProcessorFixed.MockPayments 200))
    "banned-user-123" ProcessorFixed.Probe.init ProcessorFixed.errNoEnt _ rfl

/-- C6: when the configuration opens and decodes, and `GetStatus` returns an error
(with any status) or a status other than 200, `ProcessUser` returns the error
`"payment check failed for " ++ userID`, whatever the cause, and `OnExit` is not
called, for every user and every configuration. -/
theorem processUser_payment_failure {σ : Type} (up : ProcessorFixed.UserProcessor σ)
    (userID : String) (w : σ) (configFile : ProcessorFixed.ReadCloser σ)
    (config : ProcessorFixed.Config) (status : Int) (perr : Option GoError) (w2 w3 w4 : σ)
    (hopen : up.reader.Open up.configPath (up.OnProcess w) = (.ok configFile, w2))
    (hdec : configFile.Decode w2 = (.ok config, w3))
    (hpay : up.payments.GetStatus userID w3 = ((status, perr), w4))
    (hfail : perr ≠ none ∨ status ≠ 200) :
    ProcessorFixed.ProcessUser up userID w =
      ⟨some (.errorf ("payment check failed for " ++ userID)), configFile.Close w4,
        [.onProcess, .openPath up.configPath, .decode, .getStatus userID, .close]⟩ ∧
    (ProcessorFixed.ProcessUser up userID w).err.map GoError.Error =
      some ("payment check failed for " ++ userID) ∧
    ProcessorFixed.exitCalls (ProcessorFixed.ProcessUser up userID w).trace = [] := by
  have h : ProcessorFixed.ProcessUser up userID w =
      ⟨some (.errorf ("payment check failed for " ++ userID)), configFile.Close w4,
        [.onProcess, .openPath up.configPath, .decode, .getStatus userID, .close]⟩ := by
    rw [processUser_eq_of_open_ok up userID w configFile w2 hopen]
    simp [ProcessorFixed.processOpened, hdec, hpay, hfail]
  refine ⟨h, ?_, ?_⟩ <;> rw [h] <;> simp [GoError.Error, ProcessorFixed.exitCalls]

/-- Witness for C6: `"banned-user-123"` under mode `"strict"`, once with status 500
and no error, once with status 200 and a transport error. -/
theorem processUser_payment_failure_witness :
    (ProcessorFixed.ProcessUser
        (ProcessorFixed.probedProcessor (ProcessorFixed.MockReader (.ok [("mode", "strict")]))
          (ProcessorFixed.MockPayments 500))
        "banned-user-123" ProcessorFixed.Probe.init =
      ⟨some (.errorf "payment check failed for banned-user-123"), ⟨false, 1, 1⟩,
        [.onProcess, .openPath "config.json", .decode, .getStatus "banned-user-123",
          .close]⟩) ∧
    (ProcessorFixed.ProcessUser
        (ProcessorFixed.probedProcessor (ProcessorFixed.MockReader (.ok [("mode", "strict")]))
          (ProcessorFixed.BrokenPayments 200 ProcessorFixed.errTimeout))
        "banned-user-123" ProcessorFixed.Probe.init =
      ⟨some (.errorf "payment check failed for banned-user-123"), ⟨false, 1, 1⟩,
        [.onProcess, .openPath "config.json", .decode, .getStatus "banned-user-123",
          .close]⟩) :=
  ⟨(processUser_payment_failure
      (ProcessorFixed.probedProcessor (ProcessorFixed.MockReader (.ok [("mode", "strict")]))
        (ProcessorFixed.MockPayments 500))
      "banned-user-123" ProcessorFixed.Probe.init _ [("mode", "strict")] 500 none _ _ _
      rfl rfl rfl (Or.inr (by decide))).1,
   (processUser_payment_failure
      (ProcessorFixed.probedProcessor (ProcessorFixed.MockReader (.ok [("mode", "strict")]))
        (ProcessorFixed.BrokenPayments 200 ProcessorFixed.errTimeout))
      "banned-user-123" ProcessorFixed.Probe.init _ [("mode", "strict")] 200
      (some ProcessorFixed.errTimeout) _ _ _
      rfl rfl rfl (Or.inl (by simp))).1⟩

/-- C10: whatever the collaborators do, if `Open` succeeds with the stream `f`, the
trace of `ProcessUser` holds exactly one `close`, it is the last call made, and
the world `ProcessUser` leaves is `f.Close` of the world left by the statements
under the `defer`; in particular a decode failure returns the decode error with
the stream closed and no `GetStatus` call. If `Open` fails nothing is closed. -/
theorem processUser_closes_stream {σ : Type} (up : ProcessorFixed.UserProcessor σ)
    (userID : String) (w : σ) (ores : Except GoError (ProcessorFixed.ReadCloser σ)) (w2 : σ)
    (hopen : up.reader.Open up.configPath (up.OnProcess w) = (ores, w2)) :
    (∀ f, ores = .ok f →
      (ProcessorFixed.ProcessUser up userID w).trace.count .close = 1 ∧
      (ProcessorFixed.ProcessUser up userID w).trace.getLast? = some .close ∧
      (ProcessorFixed.ProcessUser up userID w).world =
        f.Close (ProcessorFixed.processOpened up f userID w2
          [.onProcess, .openPath up.configPath]).world ∧
      (∀ e w3, f.Decode w2 = (.error e, w3) →
        ProcessorFixed.ProcessUser up userID w =
          ⟨some e, f.Close w3, [.onProcess, .openPath up.configPath, .decode, .close]⟩)) ∧
    (∀ e, ores = .error e →
      (ProcessorFixed.ProcessUser up userID w).trace.count .close = 0) := by
  constructor
  · intro f hf
    subst hf
    rw [processUser_eq_of_open_ok up userID w f w2 hopen]
    obtain ⟨suf, hs, _, hnc⟩ :=
      processOpened_trace up f userID w2 [.onProcess, .openPath up.configPath]
    refine ⟨?_, ?_, rfl, ?_⟩
    · simp only [hs]
      simp [List.count_cons, List.count_eq_zero_of_not_mem hnc]
    · simp
    · intro e w3 hdec
      simp [ProcessorFixed.processOpened, hdec]
  · intro e he
    subst he
    rw [processUser_eq_of_open_error up userID w e w2 hopen]
    simp

/-- Witness for C10: the five exit paths on the probed processor, whose stream
counts its `Close` calls: decode failure, payment failure, banned user, success
(one `close` each, `closeCount = 1`), and a failed open (no `close`). -/
theorem processUser_closes_stream_witness :
    (ProcessorFixed.ProcessUser
        (ProcessorFixed.probedProcessor (ProcessorFixed.MockReader (.error ProcessorFixed.errSyntax))
          (ProcessorFixed.MockPayments 200))
        "alice" ProcessorFixed.Probe.init =
      ⟨some ProcessorFixed.errSyntax, ⟨false, 1, 1⟩,
        [.onProcess, .openPath "config.json", .decode, .close]⟩) ∧
    ((ProcessorFixed.ProcessUser
        (ProcessorFixed.probedProcessor (ProcessorFixed.MockReader (.ok [("mode", "strict")]))
          (ProcessorFixed.MockPayments 503))
        "alice" ProcessorFixed.Probe.init).trace.count .close = 1 ∧
      (ProcessorFixed.ProcessUser
        (ProcessorFixed.probedProcessor (ProcessorFixed.MockReader (.ok [("mode", "strict")]))
          (ProcessorFixed.MockPayments 503))
        "alice" ProcessorFixed.Probe.init).world = ⟨false, 1, 1⟩) ∧
    ((ProcessorFixed.ProcessUser
        (ProcessorFixed.probedProcessor (ProcessorFixed.MockReader (.ok [("mode", "strict")]))
          (ProcessorFixed.MockPayments 200))
        "banned-user-123" ProcessorFixed.Probe.init).trace.count .close = 1 ∧
      (ProcessorFixed.ProcessUser
        (ProcessorFixed.probedProcessor (ProcessorFixed.MockReader (.ok [("mode", "strict")]))
          (ProcessorFixed.MockPayments 200))
        "banned-user-123" ProcessorFixed.Probe.init).trace.getLast? = some .close ∧
      (ProcessorFixed.ProcessUser
        (ProcessorFixed.probedProcessor (ProcessorFixed.MockReader (.ok [("mode", "strict")]))
          (ProcessorFixed.MockPayments 200))
        "banned-user-123" ProcessorFixed.Probe.init).world = ⟨true, 1, 1⟩) ∧
    ((ProcessorFixed.ProcessUser
        (ProcessorFixed.probedProcessor (ProcessorFixed.MockReader (.ok []))
          (ProcessorFixed.MockPayments 200))
        "alice" ProcessorFixed.Probe.init).trace.count .close = 1 ∧
      (ProcessorFixed.ProcessUser
        (ProcessorFixed.probedProcessor (ProcessorFixed.MockReader (.ok []))
          (ProcessorFixed.MockPayments 200))
        "alice" ProcessorFixed.Probe.init).world = ⟨false, 1, 1⟩) ∧
    (ProcessorFixed.ProcessUser
        (ProcessorFixed.probedProcessor (ProcessorFixed.BrokenReader ProcessorFixed.errNoEnt)
          (ProcessorFixed.MockPayments 200))
        "alice" ProcessorFixed.Probe.init).trace.count .close = 0 :=
  ⟨((processUser_closes_stream
      (ProcessorFixed.probedProcessor (ProcessorFixed.MockReader (.error ProcessorFixed.errSyntax))
        (ProcessorFixed.MockPayments 200))
      "alice" ProcessorFixed.Probe.init _ _ rfl).1 _ rfl).2.2.2 ProcessorFixed.errSyntax _ rfl,
   ⟨((processUser_closes_stream
      (ProcessorFixed.probedProcessor (ProcessorFixed.MockReader (.ok [("mode", "strict")]))
        (ProcessorFixed.MockPayments 503))
      "alice" ProcessorFixed.Probe.init _ _ rfl).1 _ rfl).1,
    ((processUser_closes_stream
      (ProcessorFixed.probedProcessor (ProcessorFixed.MockReader (.ok [("mode", "strict")]))
        (ProcessorFixed.MockPayments 503))
      "alice" ProcessorFixed.Probe.init _ _ rfl).1 _ rfl).2.2.1⟩,
   ⟨((processUser_closes_stream
      (ProcessorFixed.probedProcessor (ProcessorFixed.MockReader (.ok [("mode", "strict")]))
        (ProcessorFixed.MockPayments 200))
      "banned-user-123" ProcessorFixed.Probe.init _ _ rfl).1 _ rfl).1,
    ((processUser_closes_stream
      (ProcessorFixed.probedProcessor (ProcessorFixed.MockReader (.ok [("mode", "strict")]))
        (ProcessorFixed.MockPayments 200))
      "banned-user-123" ProcessorFixed.Probe.init _ _ rfl).1 _ rfl).2.1,
    ((processUser_closes_stream
      (ProcessorFixed.probedProcessor (ProcessorFixed.MockReader (.ok [("mode", "strict")]))
        (ProcessorFixed.MockPayments 200))
      "banned-user-123" ProcessorFixed.Probe.init _ _ rfl).1 _ rfl).2.2.1⟩,
   ⟨((processUser_closes_stream
      (ProcessorFixed.probedProcessor (ProcessorFixed.MockReader (.ok []))
        (ProcessorFixed.MockPayments 200))
      "alice" ProcessorFixed.Probe.init _ _ rfl).1 _ rfl).1,
    ((processUser_closes_stream
      (ProcessorFixed.probedProcessor (ProcessorFixed.MockReader (.ok []))
        (ProcessorFixed.MockPayments 200))
      "alice" ProcessorFixed.Probe.init _ _ rfl).1 _ rfl).2.2.1⟩,
   (processUser_closes_stream
      (ProcessorFixed.probedProcessor (ProcessorFixed.BrokenReader ProcessorFixed.errNoEnt)
        (ProcessorFixed.MockPayments 200))
      "alice" ProcessorFixed.Probe.init _ _ rfl).2 ProcessorFixed.errNoEnt rfl⟩

section GenerateReportLemmas

open ReportFixed

/-- Unfolding of `GenerateReport` on a report day, up to the revenue query. -/
theorem generateReport_eq_of_revenue {σ F : Type} (fmtF : F → String)
    (rm : ReportManager σ F) (adminEmail : String) (w : σ) (t : Time) (w1 : σ)
    (total : F) (rerr : Option GoError) (w2 : σ)
    (hnow : rm.now w = (t, w1)) (hday : t.Day = 1)
    (hrev : rm.reader.GetMonthlyRevenue t.Month w1 = ((total, rerr), w2)) :
    GenerateReport fmtF rm adminEmail w =
      if rerr ≠ none then ⟨rerr, w2, [.now, .getMonthlyRevenue t.Month]⟩
      else
        match rm.uploader.Upload "monthly-report.txt"
            (ByteSlice.ofString ("Revenue: " ++ fmtF total)) w2 with
        | ((uerr, writes), w3) =>
          if uerr ≠ none then
            ⟨uerr, w3, [.now, .getMonthlyRevenue t.Month,
              .upload "monthly-report.txt" (ByteSlice.ofString ("Revenue: " ++ fmtF total))]⟩
          else
            match rm.mailer adminEmail
                ((ByteSlice.ofString ("Revenue: " ++ fmtF total)).storeAll writes).toString
                w3 with
            | (merr, w4) =>
              ⟨merr, w4, [.now, .getMonthlyRevenue t.Month,
                .upload "monthly-report.txt" (ByteSlice.ofString ("Revenue: " ++ fmtF total)),
                .mail adminEmail
                  ((ByteSlice.ofString ("Revenue: " ++ fmtF total)).storeAll writes).toString]⟩ := by
  simp [GenerateReport, hnow, IsReportDay, hday, hrev]

/-- The string read from a slice made of `s` is the Go string with the text `s`. -/
theorem toString_ofString (s : String) :
    (ByteSlice.ofString s).toString = GoString.ofString s := rfl

end GenerateReportLemmas

/-- C7: when the time source returns a timestamp whose day of the month is not 1,
`GenerateReport` returns the error `"reports can only be generated on the 1st"`
and calls neither the revenue reader, nor the uploader, nor the mailer. -/
theorem generateReport_not_report_day {σ F : Type} (fmtF : F → String)
    (rm : ReportFixed.ReportManager σ F) (adminEmail : String) (w : σ)
    (t : ReportFixed.Time) (w1 : σ)
    (hnow : rm.now w = (t, w1)) (hday : t.Day ≠ 1) :
    ReportFixed.GenerateReport fmtF rm adminEmail w =
      ⟨some (.errorf "reports can only be generated on the 1st"), w1, [.now]⟩ ∧
    (ReportFixed.GenerateReport fmtF rm adminEmail w).err.map GoError.Error =
      some "reports can only be generated on the 1st" ∧
    ReportFixed.collaboratorCalls (ReportFixed.GenerateReport fmtF rm adminEmail w).trace = [] := by
  have h : ReportFixed.GenerateReport fmtF rm adminEmail w =
      ⟨some (.errorf "reports can only be generated on the 1st"), w1, [.now]⟩ := by
    simp [ReportFixed.GenerateReport, hnow, ReportFixed.IsReportDay, hday]
  refine ⟨h, ?_, ?_⟩ <;> rw [h] <;> simp [GoError.Error, ReportFixed.collaboratorCalls]

/-- Witness for C7: the clock frozen on 15 March 2026; the fakes have noted no call. -/
theorem generateReport_not_report_day_witness :
    ReportFixed.GenerateReport ReportFixed.fmtWhole
        (ReportFixed.frozenManager ReportFixed.midMonth 5000 none none none)
        "admin@test.com" ReportFixed.Ledger.init =
      ⟨some (.errorf "reports can only be generated on the 1st"), ⟨[], [], []⟩, [.now]⟩ ∧
    (ReportFixed.GenerateReport ReportFixed.fmtWhole
        (ReportFixed.frozenManager ReportFixed.midMonth 5000 none none none)
        "admin@test.com" ReportFixed.Ledger.init).err.map GoError.Error =
      some "reports can only be generated on the 1st" ∧
    ReportFixed.collaboratorCalls (ReportFixed.GenerateReport ReportFixed.fmtWhole
        (ReportFixed.frozenManager ReportFixed.midMonth 5000 none none none)
        "admin@test.com" ReportFixed.Ledger.init).trace = [] :=
  generateReport_not_report_day ReportFixed.fmtWhole
    (ReportFixed.frozenManager ReportFixed.midMonth 5000 none none none)
    "admin@test.com" ReportFixed.Ledger.init ReportFixed.midMonth _ rfl (by decide)

/-- C8: on a report day `GenerateReport` returns, unchanged, the error of the first
collaborator that fails and calls none after it: a revenue error comes back with
no upload and no mail; an upload error comes back with no mail; a mailer error
comes back as it is. -/
theorem generateReport_first_error {σ F : Type} (fmtF : F → String)
    (rm : ReportFixed.ReportManager σ F) (adminEmail : String) (w : σ)
    (t : ReportFixed.Time) (total : F) (rerr uerr merr : Option GoError)
    (writes : List (Nat × UInt8)) (w1 w2 w3 w4 : σ)
    (hnow : rm.now w = (t, w1)) (hday : t.Day = 1)
    (hrev : rm.reader.GetMonthlyRevenue t.Month w1 = ((total, rerr), w2))
    (hup : rm.uploader.Upload "monthly-report.txt"
      (ReportFixed.ByteSlice.ofString ("Revenue: " ++ fmtF total)) w2 = ((uerr, writes), w3))
    (hmail : rm.mailer adminEmail
      ((ReportFixed.ByteSlice.ofString ("Revenue: " ++ fmtF total)).storeAll writes).toString
      w3 = (merr, w4)) :
    (∀ e, rerr = some e →
      ReportFixed.GenerateReport fmtF rm adminEmail w =
        ⟨some e, w2, [.now, .getMonthlyRevenue t.Month]⟩) ∧
    (∀ e, rerr = none → uerr = some e →
      ReportFixed.GenerateReport fmtF rm adminEmail w =
        ⟨some e, w3, [.now, .getMonthlyRevenue t.Month,
          .upload "monthly-report.txt"
            (ReportFixed.ByteSlice.ofString ("Revenue: " ++ fmtF total))]⟩) ∧
    (∀ e, rerr = none → uerr = none → merr = some e →
      ReportFixed.GenerateReport fmtF rm adminEmail w =
        ⟨some e, w4, [.now, .getMonthlyRevenue t.Month,
          .upload "monthly-report.txt"
            (ReportFixed.ByteSlice.ofString ("Revenue: " ++ fmtF total)),
          .mail adminEmail
            ((ReportFixed.ByteSlice.ofString ("Revenue: " ++ fmtF total)).storeAll
              writes).toString]⟩) := by
  rw [generateReport_eq_of_revenue fmtF rm adminEmail w t w1 total rerr w2 hnow hday hrev]
  refine ⟨?_, ?_, ?_⟩
  · intro e he
    simp [he]
  · intro e hr hu
    simp [hr, hup, hu]
  · intro e hr hu hm
    simp [hr, hup, hu, hmail, hm]

/-- Witness for C8: the clock frozen on 1 February 2026 and, in turn, a failing
revenue reader, a failing uploader, a failing mailer; the world shows what the
fakes were given. -/
theorem generateReport_first_error_witness :
    (ReportFixed.GenerateReport ReportFixed.fmtWhole
        (ReportFixed.frozenManager ReportFixed.frozenTime 5000 (some ReportFixed.errDB) none none)
        "admin@test.com" ReportFixed.Ledger.init =
      ⟨some ReportFixed.errDB, ⟨[2], [], []⟩, [.now, .getMonthlyRevenue 2]⟩) ∧
    (ReportFixed.GenerateReport ReportFixed.fmtWhole
        (ReportFixed.frozenManager ReportFixed.frozenTime 5000 none (some ReportFixed.errS3) none)
        "admin@test.com" ReportFixed.Ledger.init =
      ⟨some ReportFixed.errS3,
        ⟨[2], [("monthly-report.txt", ReportFixed.ByteSlice.ofString "Revenue: 5000.000000")],
          []⟩,
        [.now, .getMonthlyRevenue 2,
          .upload "monthly-report.txt"
            (ReportFixed.ByteSlice.ofString "Revenue: 5000.000000")]⟩) ∧
    (ReportFixed.GenerateReport ReportFixed.fmtWhole
        (ReportFixed.frozenManager ReportFixed.frozenTime 5000 none none (some ReportFixed.errSMTP))
        "admin@test.com" ReportFixed.Ledger.init =
      ⟨some ReportFixed.errSMTP,
        ⟨[2], [("monthly-report.txt", ReportFixed.ByteSlice.ofString "Revenue: 5000.000000")],
          [("admin@test.com", ReportFixed.GoString.ofString "Revenue: 5000.000000")]⟩,
        [.now, .getMonthlyRevenue 2,
          .upload "monthly-report.txt" (ReportFixed.ByteSlice.ofString "Revenue: 5000.000000"),
          .mail "admin@test.com" (ReportFixed.GoString.ofString "Revenue: 5000.000000")]⟩) :=
  ⟨(generateReport_first_error ReportFixed.fmtWhole
      (ReportFixed.frozenManager ReportFixed.frozenTime 5000 (some ReportFixed.errDB) none none)
      "admin@test.com" ReportFixed.Ledger.init ReportFixed.frozenTime 5000
      (some ReportFixed.errDB) none none [] _ _ _ _ rfl rfl rfl rfl rfl).1 ReportFixed.errDB rfl,
   (generateReport_first_error ReportFixed.fmtWhole
      (ReportFixed.frozenManager ReportFixed.frozenTime 5000 none (some ReportFixed.errS3) none)
      "admin@test.com" ReportFixed.Ledger.init ReportFixed.frozenTime 5000
      none (some ReportFixed.errS3) none [] _ _ _ _ rfl rfl rfl rfl rfl).2.1 ReportFixed.errS3
      rfl rfl,
   (generateReport_first_error ReportFixed.fmtWhole
      (ReportFixed.frozenManager ReportFixed.frozenTime 5000 none none (some ReportFixed.errSMTP))
      "admin@test.com" ReportFixed.Ledger.init ReportFixed.frozenTime 5000
      none none (some ReportFixed.errSMTP) [] _ _ _ _ rfl rfl rfl rfl rfl).2.2 ReportFixed.errSMTP
      rfl rfl rfl⟩

/-- C9, as the code has it: on a report day, when the revenue reader, the uploader
and the mailer all succeed, `GenerateReport` returns nil after exactly these
calls, in this order: the revenue reader with the month of the timestamp, the
uploader with key `"monthly-report.txt"` and the content `"Revenue: "` followed
by the rendering of the total, the mailer with `adminEmail` and, as body, the
bytes the content slice holds once `Upload` has returned. That body is the
uploaded content whenever the uploader left the bytes of the slice as they were. -/
theorem generateReport_success {σ F : Type} (fmtF : F → String)
    (rm : ReportFixed.ReportManager σ F) (adminEmail : String) (w : σ)
    (t : ReportFixed.Time) (total : F) (writes : List (Nat × UInt8)) (w1 w2 w3 w4 : σ)
    (hnow : rm.now w = (t, w1)) (hday : t.Day = 1)
    (hrev : rm.reader.GetMonthlyRevenue t.Month w1 = ((total, none), w2))
    (hup : rm.uploader.Upload "monthly-report.txt"
      (ReportFixed.ByteSlice.ofString ("Revenue: " ++ fmtF total)) w2 = ((none, writes), w3))
    (hmail : rm.mailer adminEmail
      ((ReportFixed.ByteSlice.ofString ("Revenue: " ++ fmtF total)).storeAll writes).toString
      w3 = (none, w4)) :
    ReportFixed.GenerateReport fmtF rm adminEmail w =
      ⟨none, w4, [.now, .getMonthlyRevenue t.Month,
        .upload "monthly-report.txt"
          (ReportFixed.ByteSlice.ofString ("Revenue: " ++ fmtF total)),
        .mail adminEmail
          ((ReportFixed.ByteSlice.ofString ("Revenue: " ++ fmtF total)).storeAll
            writes).toString]⟩ ∧
    ReportFixed.collaboratorCalls (ReportFixed.GenerateReport fmtF rm adminEmail w).trace =
      [.getMonthlyRevenue t.Month,
        .upload "monthly-report.txt"
          (ReportFixed.ByteSlice.ofString ("Revenue: " ++ fmtF total)),
        .mail adminEmail
          ((ReportFixed.ByteSlice.ofString ("Revenue: " ++ fmtF total)).storeAll
            writes).toString] ∧
    ((ReportFixed.ByteSlice.ofString ("Revenue: " ++ fmtF total)).storeAll writes =
        ReportFixed.ByteSlice.ofString ("Revenue: " ++ fmtF total) →
      ReportFixed.GenerateReport fmtF rm adminEmail w =
        ⟨none, w4, [.now, .getMonthlyRevenue t.Month,
          .upload "monthly-report.txt"
            (ReportFixed.ByteSlice.ofString ("Revenue: " ++ fmtF total)),
          .mail adminEmail (ReportFixed.GoString.ofString ("Revenue: " ++ fmtF total))]⟩) := by
  have h : ReportFixed.GenerateReport fmtF rm adminEmail w =
      ⟨none, w4, [.now, .getMonthlyRevenue t.Month,
        .upload "monthly-report.txt"
          (ReportFixed.ByteSlice.ofString ("Revenue: " ++ fmtF total)),
        .mail adminEmail
          ((ReportFixed.ByteSlice.ofString ("Revenue: " ++ fmtF total)).storeAll
            writes).toString]⟩ := by
    rw [generateReport_eq_of_revenue fmtF rm adminEmail w t w1 total none w2 hnow hday hrev]
    simp [hup, hmail]
  refine ⟨h, ?_, ?_⟩
  · rw [h]
    simp [ReportFixed.collaboratorCalls]
  · intro hsame
    rw [h, hsame, toString_ofString]

/-- Witness for C9: `TestGenerateReport_Success`: the clock frozen on 1 February
2026, revenue 5000, an uploader that writes nothing, and a mailer, both
succeeding; the mailed body is the uploaded content. -/
theorem generateReport_success_witness :
    ReportFixed.GenerateReport ReportFixed.fmtWhole
        (ReportFixed.frozenManager ReportFixed.frozenTime 5000 none none none)
        "admin@test.com" ReportFixed.Ledger.init =
      ⟨none,
        ⟨[2], [("monthly-report.txt", ReportFixed.ByteSlice.ofString "Revenue: 5000.000000")],
          [("admin@test.com", ReportFixed.GoString.ofString "Revenue: 5000.000000")]⟩,
        [.now, .getMonthlyRevenue 2,
          .upload "monthly-report.txt" (ReportFixed.ByteSlice.ofString "Revenue: 5000.000000"),
          .mail "admin@test.com" (ReportFixed.GoString.ofString "Revenue: 5000.000000")]⟩ :=
  (generateReport_success ReportFixed.fmtWhole
    (ReportFixed.frozenManager ReportFixed.frozenTime 5000 none none none)
    "admin@test.com" ReportFixed.Ledger.init ReportFixed.frozenTime 5000 [] _ _ _ _
    rfl rfl rfl rfl rfl).2.2 rfl

/-- C9, counterexample: on 1 February 2026, with revenue 5000, an uploader that
overwrites the first byte of the slice it is handed and returns nil, and a mailer
that succeeds, `GenerateReport` returns nil, the uploader was given
`"Revenue: 5000.000000"` and the mailer was given `"Xevenue: 5000.000000"`; so
the mailed body is not always equal to the uploaded content. -/
theorem generateReport_body_follows_buffer :
    ReportFixed.GenerateReport ReportFixed.fmtWhole
        (ReportFixed.scribbledManager ReportFixed.frozenTime 5000)
        "admin@test.com" ReportFixed.Ledger.init =
      ⟨none,
        ⟨[2], [("monthly-report.txt", ReportFixed.ByteSlice.ofString "Revenue: 5000.000000")],
          [("admin@test.com", ReportFixed.GoString.ofString "Xevenue: 5000.000000")]⟩,
        [.now, .getMonthlyRevenue 2,
          .upload "monthly-report.txt" (ReportFixed.ByteSlice.ofString "Revenue: 5000.000000"),
          .mail "admin@test.com" (ReportFixed.GoString.ofString "Xevenue: 5000.000000")]⟩ ∧
    ReportFixed.GoString.ofString "Xevenue: 5000.000000" ≠
      (ReportFixed.ByteSlice.ofString "Revenue: 5000.000000").toString ∧
    ¬ (∀ (σ F : Type) (fmtF : F → String) (rm : ReportFixed.ReportManager σ F)
        (adminEmail : String) (w : σ) (t : ReportFixed.Time) (total : F)
        (writes : List (Nat × UInt8)) (w1 w2 w3 w4 : σ),
        rm.now w = (t, w1) → t.Day = 1 →
        rm.reader.GetMonthlyRevenue t.Month w1 = ((total, none), w2) →
        rm.uploader.Upload "monthly-report.txt"
          (ReportFixed.ByteSlice.ofString ("Revenue: " ++ fmtF total)) w2 =
            ((none, writes), w3) →
        rm.mailer adminEmail
          ((ReportFixed.ByteSlice.ofString ("Revenue: " ++ fmtF total)).storeAll
            writes).toString w3 = (none, w4) →
        ReportFixed.GenerateReport fmtF rm adminEmail w =
          ⟨none, w4, [.now, .getMonthlyRevenue t.Month,
            .upload "monthly-report.txt"
              (ReportFixed.ByteSlice.ofString ("Revenue: " ++ fmtF total)),
            .mail adminEmail
              (ReportFixed.ByteSlice.ofString ("Revenue: " ++ fmtF total)).toString]⟩) := by
  refine ⟨rfl, by decide, ?_⟩
  intro h
  have h0 := h ReportFixed.Ledger Nat ReportFixed.fmtWhole
    (ReportFixed.scribbledManager ReportFixed.frozenTime 5000)
    "admin@test.com" ReportFixed.Ledger.init ReportFixed.frozenTime 5000 [(0, 88)] _ _ _ _
    rfl rfl rfl rfl rfl
  have h1 := congrArg ReportFixed.Outcome.trace h0
  revert h1
  decide
